import Mathlib

/-!
# fb_s6d0154: register-level driver for the S6D0154X LCD controller

A shallow embedding of `src/fb_s6d0154.c`.  Every driver function is a pure
function that returns the trace of calls it makes into the surrounding
framework (bus adapter, reset line, delay, logging), in program order, next to
its C return value.  The bus adapter itself lives outside this file of the
repository, so its `read` callback is a parameter of the functions that use it.

Integers: `int` arguments are `Int`, `unsigned`/`unsigned long`/`u8` values are
`Nat`.  The arithmetic of the driver stays far below 2^31 on the inputs the
theorems range over, so no wrap-around is modelled except for the `u8` store
into the receive buffer.
-/

namespace S6D0154

/-! ## Data model -/

/-- One call from the driver into the framework, as it appears in the source. -/
inductive Event where
  /-- A call `fbtft_par_dbg(level, par, fmt, args...)`: the format text and its integer arguments -/
  | dbg (msg : String) (args : List Int)
  /-- A call `par->fbtftops.reset(par)` -/
  | reset
  /-- A call `write_reg(par, reg)`: a command-only write -/
  | write_cmd (reg : Nat)
  /-- A call `write_reg(par, reg, val)`: a command followed by one data word -/
  | write_reg (reg : Nat) (val : Int)
  /-- A call `par->fbtftops.read(par, buf, len)` -/
  | read (len : Nat)
  /-- A call `mdelay(ms)` -/
  | mdelay (ms : Nat)
  /-- A call `dev_warn(...)` about an unrecognized device code -/
  | dev_warn (devcode : Nat)
  deriving DecidableEq, Repr

/-- What one call of the bus adapter's `read` callback does: its return code
and the bytes it stores into the caller's buffer (possibly none). -/
structure ReadResult where
  ret : Int
  data : List Nat
  deriving DecidableEq, Repr

/-- Panel width: `#define WIDTH 240` -/
def WIDTH : Int := 240

/-- Panel height: `#define HEIGHT 320` -/
def HEIGHT : Int := 320

/-! ## Projections of a trace -/

/-- Bus writes: `write_reg` with or without a data word. -/
def Event.isWrite : Event → Bool
  | .write_cmd _ => true
  | .write_reg _ _ => true
  | _ => false

/-- Bus writes and delays. -/
def Event.isWriteOrDelay : Event → Bool
  | .write_cmd _ => true
  | .write_reg _ _ => true
  | .mdelay _ => true
  | _ => false

/-- Warnings. -/
def Event.isWarn : Event → Bool
  | .dev_warn _ => true
  | _ => false

/-- The bus writes of a trace, in order. -/
def bus_writes (t : List Event) : List Event := t.filter Event.isWrite

/-- The bus writes and delays of a trace, in order. -/
def writes_and_delays (t : List Event) : List Event := t.filter Event.isWriteOrDelay

/-- The warnings of a trace, in order. -/
def warnings (t : List Event) : List Event := t.filter Event.isWarn

/-- The data words written to register `reg`, in order. -/
def values_written (reg : Nat) : List Event → List Int
  | [] => []
  | .write_reg r v :: t => if r = reg then v :: values_written reg t else values_written reg t
  | _ :: t => values_written reg t

/-! ## set_addr_win (source lines 156-182) -/

/-- Source function `static void set_addr_win(struct fbtft_par *par, int xs, int ys, int xe, int ye)`
with `rotate = par->info->var.rotate`. -/
def set_addr_win (rotate : Nat) (xs ys xe ye : Int) : List Event :=
  [Event.dbg "%s(xs=%d, ys=%d, xe=%d, ye=%d)" [xs, ys, xe, ye]] ++
  (match rotate with
   | 0 => [Event.write_reg 0x0020 xs, Event.write_reg 0x0021 ys]
   | 90 => [Event.write_reg 0x0020 ys, Event.write_reg 0x0021 (HEIGHT - 1 - xs)]
   | 180 => [Event.write_reg 0x0020 (WIDTH - 1 - xs), Event.write_reg 0x0021 (HEIGHT - 1 - ys)]
   | 270 => [Event.write_reg 0x0020 (WIDTH - 1 - ys), Event.write_reg 0x0021 xs]
   | _ => []) ++
  [Event.write_cmd 0x0022]

/-- The rotation table of the specification: the pair (horizontal, vertical)
for a start corner, written from the table in the specification. -/
def spec_window (r : Nat) (xs ys : Int) : Int × Int :=
  if r = 0 then (xs, ys)
  else if r = 90 then (ys, 319 - xs)
  else if r = 180 then (239 - xs, 319 - ys)
  else (239 - ys, xs)

/-! ## read_devicecode and init_display (source lines 41-154) -/

/-- The receive buffer after the adapter has stored its bytes: at most `len`
bytes are stored from the start of the buffer, each as a `u8`; the rest of the
buffer keeps its contents. -/
def store_bytes (buf : List Nat) (data : List Nat) (len : Nat) : List Nat :=
  (data.take len).map (fun b => b % 256) ++ buf.drop (data.take len).length

/-- Source function `static unsigned read_devicecode(struct fbtft_par *par)`, with
`read = par->fbtftops.read`.  The return code of the read is assigned to `ret`
and not looked at again. -/
def read_devicecode (read : Nat → ReadResult) : List Event × Nat :=
  let rxbuf : List Nat := [0, 0, 0, 0]
  let _ret : Int := (read 2).ret
  let rxbuf := store_bytes rxbuf (read 2).data 2
  ([Event.write_cmd 0x0000, Event.read 2], (rxbuf.getD 0 0 <<< 8) ||| rxbuf.getD 1 0)

/-- Source function `static int init_display(struct fbtft_par *par)`, with
`read = par->fbtftops.read`. -/
def init_display (read : Nat → ReadResult) : List Event × Int :=
  let rd := read_devicecode read
  let devcode : Nat := rd.2
  ([Event.dbg "%s()" [], Event.reset] ++
   rd.1 ++
   [Event.dbg "Device code: 0x%04X" [(devcode : Int)]] ++
   (if devcode ≠ 0x0000 ∧ devcode ≠ 0x0154 then [Event.dev_warn devcode] else []) ++
   [ -- Power On sequence
     Event.write_reg 0x0011 0x001A,
     Event.write_reg 0x0012 0x3121,
     Event.write_reg 0x0013 0x006C,
     Event.write_reg 0x0014 0x4249,
     Event.write_reg 0x0010 0x0800,
     Event.write_reg 0x0011 0x011A,
     Event.mdelay 10,
     Event.write_reg 0x0011 0x031A,
     Event.mdelay 10,
     Event.write_reg 0x0011 0x071A,
     Event.mdelay 10,
     Event.write_reg 0x0011 0x0F1A,
     Event.mdelay 10,
     Event.write_reg 0x0011 0x0F3A,
     Event.mdelay 30,
     Event.write_reg 0x0001 0x0128,
     Event.write_reg 0x0002 0x0300,
     Event.write_reg 0x0003 0x1030,
     Event.write_reg 0x0007 0x0000,
     Event.write_reg 0x0008 0x0808,
     Event.write_reg 0x000B 0x1100,
     Event.write_reg 0x000C 0x0000,
     Event.write_reg 0x0015 0x0020,
     Event.write_reg 0x0020 0x0000,
     Event.write_reg 0x0021 0x0000,
     -- Set GRAM area
     Event.write_reg 0x0037 0x0000,
     Event.write_reg 0x0036 0x00EF,
     Event.write_reg 0x0039 0x0000,
     Event.write_reg 0x0038 0x013F,
     Event.write_reg 0x000F 0x0801,
     Event.write_reg 0x0007 0x0016,
     Event.write_reg 0x0007 0x0017 ],
   0)

/-- The events from the first write to register `a` (excluded) up to the first
later write to register `b` (excluded). -/
def between_writes (a b : Nat) (t : List Event) : List Event :=
  ((t.dropWhile (fun e => match e with
      | .write_reg r _ => r != a
      | _ => true)).drop 1).takeWhile (fun e => match e with
      | .write_reg r _ => r != b
      | _ => true)

/-- The events after the first `read` call of a trace. -/
def after_read (t : List Event) : List Event :=
  (t.dropWhile (fun e => match e with
      | .read _ => false
      | _ => true)).drop 1

/-- Total of the delays of a trace, in milliseconds. -/
def total_delay : List Event → Nat
  | [] => 0
  | .mdelay ms :: t => ms + total_delay t
  | _ :: t => total_delay t

/-! ## set_var (source lines 184-203) -/

/-- Source function `static int set_var(struct fbtft_par *par)` with
`rotate = par->info->var.rotate` and `bgr = par->bgr`. -/
def set_var (rotate : Nat) (bgr : Nat) : List Event × Int :=
  ([Event.dbg "%s()" []] ++
   (match rotate with
    | 0 => [Event.write_reg 0x0003 (((bgr <<< 12) ||| 0x30 : Nat) : Int)]
    | 90 => [Event.write_reg 0x0003 (((bgr <<< 12) ||| 0x18 : Nat) : Int)]
    | 180 => [Event.write_reg 0x0003 (((bgr <<< 12) ||| 0x00 : Nat) : Int)]
    | 270 => [Event.write_reg 0x0003 (((bgr <<< 12) ||| 0x28 : Nat) : Int)]
    | _ => []),
   0)

/-- The low byte the specification assigns to a rotation. -/
def spec_entry_mode (r : Nat) : Nat :=
  if r = 0 then 0x30 else if r = 90 then 0x18 else if r = 180 then 0x00 else 0x28

/-! ## set_gamma (source lines 210-240) -/

/-- The local array `unsigned long mask[]` of `set_gamma`. -/
def mask : List Nat :=
  [0x1f, 0x1f, 0x0f, 0x0f, 0x0f, 0x0f, 0x0f, 0x0f, 0x0f, 0x0f,
   0x1f, 0x1f, 0x0f, 0x0f, 0x0f, 0x0f, 0x0f, 0x0f, 0x0f, 0x0f]

/-- The accessor `#define CURVE(num, idx)  curves[num*par->gamma.num_values + idx]`, read
access; `none` when the index lies outside the table. -/
def CURVE (num_values : Nat) (curves : List Nat) (num idx : Nat) : Option Nat :=
  curves[num * num_values + idx]?

/-- Body of the mask loop: `CURVE(i, j) &= mask[i*par->gamma.num_values + j]`;
`none` when either index lies outside its array. -/
def mask_point (num_values : Nat) (curves : List Nat) (i j : Nat) : Option (List Nat) := do
  let c ← CURVE num_values curves i j
  let m ← mask[i * num_values + j]?
  pure (curves.set (i * num_values + j) (c &&& m))

/-- The mask phase: `for (i = 0; i < 2; i++) for (j = 0; j < 10; j++) ...`. -/
def apply_mask (num_values : Nat) (curves : List Nat) : Option (List Nat) :=
  (List.range 2).foldlM
    (fun cs i => (List.range 10).foldlM (fun cs j => mask_point num_values cs i j) cs)
    curves

/-- One statement of the pack phase:
`write_reg(par, reg, CURVE(num, hi) << 8 | CURVE(num, lo))`. -/
def write_packed (num_values : Nat) (curves : List Nat) (reg num hi lo : Nat) : Option Event := do
  let h ← CURVE num_values curves num hi
  let l ← CURVE num_values curves num lo
  pure (Event.write_reg reg (((h <<< 8) ||| l : Nat) : Int))

/-- Source function `static int set_gamma(struct fbtft_par *par, unsigned long *curves)` with
`num_values = par->gamma.num_values`: the trace, the caller's table as the
function leaves it, and the return value; `none` when an array access falls
outside its array. -/
def set_gamma (num_values : Nat) (curves : List Nat) : Option (List Event × List Nat × Int) := do
  let curves ← apply_mask num_values curves
  let w50 ← write_packed num_values curves 0x0050 0 5 4
  let w51 ← write_packed num_values curves 0x0051 0 7 6
  let w52 ← write_packed num_values curves 0x0052 0 9 8
  let w53 ← write_packed num_values curves 0x0053 0 3 2
  let w58 ← write_packed num_values curves 0x0058 0 1 0
  let w54 ← write_packed num_values curves 0x0054 1 5 4
  let w55 ← write_packed num_values curves 0x0055 1 7 6
  let w56 ← write_packed num_values curves 0x0056 1 9 8
  let w57 ← write_packed num_values curves 0x0057 1 3 2
  let w59 ← write_packed num_values curves 0x0059 1 1 0
  pure ([Event.dbg "%s()" [], w50, w51, w52, w53, w58, w54, w55, w56, w57, w59], curves, 0)

/-- The width mask the specification declares for control point `j` of a
curve: 5 bits for points 0 and 1, 4 bits for points 2 to 9. -/
def spec_mask (j : Nat) : Nat := if j < 2 then 0x1F else 0x0F

/-- The masked control point `j` of curve `i` of a 2 x 10 table, after the
specification. -/
def spec_point (c : List Nat) (i j : Nat) : Nat := c.getD (i * 10 + j) 0 &&& spec_mask j

/-- The packed register of the specification: high point in the upper byte,
low point in the lower byte. -/
def spec_pack (c : List Nat) (i hi lo : Nat) : Nat :=
  (spec_point c i hi <<< 8) ||| spec_point c i lo

/-- The register layout table of the specification: register, curve, point in
the high byte, point in the low byte. -/
def spec_layout : List (Nat × Nat × Nat × Nat) :=
  [(0x50, 0, 5, 4), (0x51, 0, 7, 6), (0x52, 0, 9, 8), (0x53, 0, 3, 2), (0x58, 0, 1, 0),
   (0x54, 1, 5, 4), (0x55, 1, 7, 6), (0x56, 1, 9, 8), (0x57, 1, 3, 2), (0x59, 1, 1, 0)]

/-- The horizontal GRAM window a trace programs: the single values written to
the start register 0x0037 and the end register 0x0036. -/
def h_window (t : List Event) : Option (Int × Int) :=
  match values_written 0x0037 t, values_written 0x0036 t with
  | [s], [e] => some (s, e)
  | _, _ => none

/-- The vertical GRAM window a trace programs: the single values written to
the start register 0x0039 and the end register 0x0038. -/
def v_window (t : List Event) : Option (Int × Int) :=
  match values_written 0x0039 t, values_written 0x0038 t with
  | [s], [e] => some (s, e)
  | _, _ => none

/-- The start corner recovered from the pair of address registers, for each
rotation: the algebraic inverse of the rotation table. -/
def addr_inverse (r : Nat) (h v : Int) : Int × Int :=
  if r = 0 then (h, v)
  else if r = 90 then (319 - v, h)
  else if r = 180 then (239 - h, 319 - v)
  else (v, 239 - h)

/-- Logging calls: the debug lines and the warning. -/
def Event.isLog : Event → Bool
  | .dbg _ _ => true
  | .dev_warn _ => true
  | _ => false

/-- The trace without its logging calls: reset, bus writes, reads and delays,
in order. -/
def core_events (t : List Event) : List Event := t.filter (fun e => !e.isLog)

/-- Positions, within a trace, of the register writes whose register and
value satisfy `p`, counted from `start`. -/
def write_positions (p : Nat → Int → Bool) (start : Nat) : List Event → List Nat
  | [] => []
  | .write_reg r v :: t =>
      if p r v then start :: write_positions p (start + 1) t
      else write_positions p (start + 1) t
  | _ :: t => write_positions p (start + 1) t

/-- Every position of `a` lies before every position of `b`. -/
def all_before (a b : List Nat) : Bool := a.all (fun i => b.all (fun j => decide (i < j)))

/-- The logical rectangle of the rotated frame: 240 x 320 for rotations 0 and
180, 320 x 240 for rotations 90 and 270. -/
def in_logical (r : Nat) (xs ys : Int) : Prop :=
  if r = 0 ∨ r = 180 then (0 ≤ xs ∧ xs < 240) ∧ (0 ≤ ys ∧ ys < 320)
  else (0 ≤ xs ∧ xs < 320) ∧ (0 ≤ ys ∧ ys < 240)

/-! ## Display metadata (source lines 34-38 and 243-256) -/

/-- The text `#define DEFAULT_GAMMA`: two lines of ten hexadecimal numerals. -/
def DEFAULT_GAMMA : String := "00 10 0 0 1 1 3 6 8 4\n10 00 3 3 5 6 6 4 3 3"

/-- The scalar fields of `struct fbtft_display` that the driver fills in. -/
structure fbtft_display where
  regwidth : Nat
  width : Int
  height : Int
  gamma_num : Nat
  gamma_len : Nat
  gamma : String
  deriving DecidableEq, Repr

/-- The initializer `static struct fbtft_display display`. -/
def display : fbtft_display := ⟨16, WIDTH, HEIGHT, 2, 10, DEFAULT_GAMMA⟩

/-- Modelled from the spec: the table that the text `DEFAULT_GAMMA` denotes
once the framework (outside this file) has parsed it; the specification gives
it as positive curve `{0,0x10,0,0,1,1,3,6,8,4}` followed by negative curve
`{0x10,0,3,3,5,6,6,4,3,3}`. -/
def default_gamma_curves : List Nat :=
  [0x00, 0x10, 0, 0, 1, 1, 3, 6, 8, 4,
   0x10, 0x00, 3, 3, 5, 6, 6, 4, 3, 3]

/-! ## Phases of the init sequence, after the specification -/

/-- The display-disable write 0x0007 <- 0 and the panel-geometry writes. -/
def is_geometry_write (r : Nat) (v : Int) : Bool :=
  (r == 0x0007 && v == 0) || [0x0001, 0x0002, 0x0003, 0x0008, 0x000B, 0x000C, 0x0015].contains r

/-- The GRAM addressing writes: write position and window extents. -/
def is_gram_write (r : Nat) (_v : Int) : Bool :=
  [0x0020, 0x0021, 0x0036, 0x0037, 0x0038, 0x0039].contains r

/-- The oscillator-start write. -/
def is_osc_write (r : Nat) (_v : Int) : Bool := r == 0x000F

end S6D0154

namespace S6D0154

/-! ## Theorems -/

/-! ### Helper lemmas -/

theorem range_two : List.range 2 = [0, 1] := rfl

theorem range_ten : List.range 10 = [0, 1, 2, 3, 4, 5, 6, 7, 8, 9] := rfl

/-- A table of 20 entries is the list of its 20 entries. -/
theorem table_of_length_20 (c : List Nat) (h : c.length = 20) :
    c = [c.getD 0 0, c.getD 1 0, c.getD 2 0, c.getD 3 0, c.getD 4 0, c.getD 5 0, c.getD 6 0,
         c.getD 7 0, c.getD 8 0, c.getD 9 0, c.getD 10 0, c.getD 11 0, c.getD 12 0, c.getD 13 0,
         c.getD 14 0, c.getD 15 0, c.getD 16 0, c.getD 17 0, c.getD 18 0, c.getD 19 0] := by
  apply List.ext_getElem
  · simp [h]
  · intro n h1 h2
    simp only [List.length_cons, List.length_nil] at h2
    interval_cases n <;> simp [List.getD_eq_getElem?_getD, List.getElem?_eq_getElem, h]

/-- The mask phase on a 2 x 10 table. -/
theorem apply_mask_table (c0 c1 c2 c3 c4 c5 c6 c7 c8 c9 d0 d1 d2 d3 d4 d5 d6 d7 d8 d9 : Nat) :
    apply_mask 10 [c0, c1, c2, c3, c4, c5, c6, c7, c8, c9,
                   d0, d1, d2, d3, d4, d5, d6, d7, d8, d9] =
      some [c0 &&& 0x1f, c1 &&& 0x1f, c2 &&& 0x0f, c3 &&& 0x0f, c4 &&& 0x0f, c5 &&& 0x0f,
            c6 &&& 0x0f, c7 &&& 0x0f, c8 &&& 0x0f, c9 &&& 0x0f,
            d0 &&& 0x1f, d1 &&& 0x1f, d2 &&& 0x0f, d3 &&& 0x0f, d4 &&& 0x0f, d5 &&& 0x0f,
            d6 &&& 0x0f, d7 &&& 0x0f, d8 &&& 0x0f, d9 &&& 0x0f] := by
  simp [apply_mask, range_two, range_ten, mask_point, CURVE, mask]

/-- The whole of `set_gamma` on a 2 x 10 table. -/
theorem set_gamma_table (c0 c1 c2 c3 c4 c5 c6 c7 c8 c9 d0 d1 d2 d3 d4 d5 d6 d7 d8 d9 : Nat) :
    set_gamma 10 [c0, c1, c2, c3, c4, c5, c6, c7, c8, c9,
                  d0, d1, d2, d3, d4, d5, d6, d7, d8, d9] =
      some ([Event.dbg "%s()" [],
             Event.write_reg 0x0050 ((((c5 &&& 0x0f) <<< 8) ||| (c4 &&& 0x0f) : Nat) : Int),
             Event.write_reg 0x0051 ((((c7 &&& 0x0f) <<< 8) ||| (c6 &&& 0x0f) : Nat) : Int),
             Event.write_reg 0x0052 ((((c9 &&& 0x0f) <<< 8) ||| (c8 &&& 0x0f) : Nat) : Int),
             Event.write_reg 0x0053 ((((c3 &&& 0x0f) <<< 8) ||| (c2 &&& 0x0f) : Nat) : Int),
             Event.write_reg 0x0058 ((((c1 &&& 0x1f) <<< 8) ||| (c0 &&& 0x1f) : Nat) : Int),
             Event.write_reg 0x0054 ((((d5 &&& 0x0f) <<< 8) ||| (d4 &&& 0x0f) : Nat) : Int),
             Event.write_reg 0x0055 ((((d7 &&& 0x0f) <<< 8) ||| (d6 &&& 0x0f) : Nat) : Int),
             Event.write_reg 0x0056 ((((d9 &&& 0x0f) <<< 8) ||| (d8 &&& 0x0f) : Nat) : Int),
             Event.write_reg 0x0057 ((((d3 &&& 0x0f) <<< 8) ||| (d2 &&& 0x0f) : Nat) : Int),
             Event.write_reg 0x0059 ((((d1 &&& 0x1f) <<< 8) ||| (d0 &&& 0x1f) : Nat) : Int)],
            [c0 &&& 0x1f, c1 &&& 0x1f, c2 &&& 0x0f, c3 &&& 0x0f, c4 &&& 0x0f, c5 &&& 0x0f,
             c6 &&& 0x0f, c7 &&& 0x0f, c8 &&& 0x0f, c9 &&& 0x0f,
             d0 &&& 0x1f, d1 &&& 0x1f, d2 &&& 0x0f, d3 &&& 0x0f, d4 &&& 0x0f, d5 &&& 0x0f,
             d6 &&& 0x0f, d7 &&& 0x0f, d8 &&& 0x0f, d9 &&& 0x0f],
            0) := by
  simp only [set_gamma, apply_mask_table, Option.bind_eq_bind, Option.some_bind]
  rfl

/-- Two bytes packed into a word come apart again. -/
theorem pack_split (a b : Nat) (ha : a < 256) (hb : b < 256) :
    (a <<< 8) ||| b < 65536 ∧ ((a <<< 8) ||| b) >>> 8 = a ∧ ((a <<< 8) ||| b) &&& 0xFF = b := by
  have e : (a <<< 8) ||| b = 2 ^ 8 * a + b := by
    rw [Nat.mul_add_lt_is_or (by simpa using hb), Nat.shiftLeft_eq, Nat.mul_comm]
  have m : ∀ x : Nat, x &&& 0xFF = x % 2 ^ 8 := fun x => Nat.and_pow_two_sub_one_eq_mod x 8
  rw [m, e, Nat.shiftRight_eq_div_pow]
  omega

/-- A masked control point is a byte. -/
theorem spec_point_lt (c : List Nat) (i j : Nat) : spec_point c i j < 256 := by
  have h : spec_point c i j ≤ spec_mask j := Nat.and_le_right
  have h2 : spec_mask j ≤ 0x1F := by unfold spec_mask; split <;> decide
  omega

/-- The GRAM window `init_display` programs does not depend on the read. -/
theorem init_display_windows (read : Nat → ReadResult) :
    h_window (init_display read).1 = some (0, 239) ∧
      v_window (init_display read).1 = some (0, 319) := by
  simp only [init_display, read_devicecode]
  split <;> exact ⟨rfl, rfl⟩

/-- The address registers `set_addr_win` writes, after the rotation table. -/
theorem set_addr_win_registers (r : Nat) (xs ys xe ye : Int)
    (hr : r = 0 ∨ r = 90 ∨ r = 180 ∨ r = 270) :
    values_written 0x0020 (set_addr_win r xs ys xe ye) = [(spec_window r xs ys).1] ∧
      values_written 0x0021 (set_addr_win r xs ys xe ye) = [(spec_window r xs ys).2] := by
  rcases hr with h | h | h | h <;> subst h <;>
    simp [set_addr_win, values_written, spec_window, WIDTH, HEIGHT]

/-- A low byte ORed under a shifted high byte is their sum. -/
theorem pack_eq (a b : Nat) (hb : b < 256) : (a <<< 8) ||| b = a * 256 + b := by
  rw [Nat.shiftLeft_eq, Nat.mul_comm a, ← Nat.mul_add_lt_is_or (by simpa using hb)]

/-- The events of `init_display` other than logging do not depend on the read. -/
theorem init_display_core (read : Nat → ReadResult) :
    core_events (init_display read).1 =
      core_events (init_display (fun _ => ⟨0, [0x01, 0x54]⟩)).1 := by
  simp only [init_display, read_devicecode]
  split <;> rfl

/-- The writes and delays of `init_display` do not depend on the read. -/
theorem init_display_writes_and_delays (read : Nat → ReadResult) :
    writes_and_delays (init_display read).1 =
      writes_and_delays (init_display (fun _ => ⟨0, [0x01, 0x54]⟩)).1 := by
  simp only [init_display, read_devicecode]
  split <;> rfl

/-- The bus writes of `init_display` do not depend on the read. -/
theorem init_display_bus_writes (read : Nat → ReadResult) :
    bus_writes (init_display read).1 =
      bus_writes (init_display (fun _ => ⟨0, [0x01, 0x54]⟩)).1 := by
  simp only [init_display, read_devicecode]
  split <;> rfl

/-! ### The claims -/

/-- C1: for each of the four rotations and each start corner in
0 <= xs < 240, 0 <= ys < 320 (any end corner), the bus writes of `set_addr_win`
are exactly 0x0020 <- H, 0x0021 <- V and the data-less command 0x0022, in this
order, with (H, V) given by the rotation table; at the origin the four pairs
are (0,0), (0,319), (239,319), (239,0). -/
theorem set_addr_win_writes (r : Nat) (xs ys xe ye : Int)
    (hr : r = 0 ∨ r = 90 ∨ r = 180 ∨ r = 270)
    (_hx : 0 ≤ xs ∧ xs < 240) (_hy : 0 ≤ ys ∧ ys < 320) :
    bus_writes (set_addr_win r xs ys xe ye) =
        [Event.write_reg 0x0020 (spec_window r xs ys).1,
         Event.write_reg 0x0021 (spec_window r xs ys).2,
         Event.write_cmd 0x0022] ∧
      spec_window 0 0 0 = (0, 0) ∧ spec_window 90 0 0 = (0, 319) ∧
      spec_window 180 0 0 = (239, 319) ∧ spec_window 270 0 0 = (239, 0) := by
  refine ⟨?_, by decide, by decide, by decide, by decide⟩
  rcases hr with h | h | h | h <;> subst h <;>
    simp [set_addr_win, bus_writes, Event.isWrite, spec_window, WIDTH, HEIGHT]

theorem set_addr_win_writes_witness :
    ((90 : Nat) = 0 ∨ (90 : Nat) = 90 ∨ (90 : Nat) = 180 ∨ (90 : Nat) = 270) ∧
      ((0 : Int) ≤ 5 ∧ (5 : Int) < 240) ∧ ((0 : Int) ≤ 7 ∧ (7 : Int) < 320) ∧
      (bus_writes (set_addr_win 90 5 7 100 200) =
        [Event.write_reg 0x0020 (spec_window 90 5 7).1,
         Event.write_reg 0x0021 (spec_window 90 5 7).2,
         Event.write_cmd 0x0022] ∧
      spec_window 0 0 0 = (0, 0) ∧ spec_window 90 0 0 = (0, 319) ∧
      spec_window 180 0 0 = (239, 319) ∧ spec_window 270 0 0 = (239, 0)) :=
  ⟨by decide, by decide, by decide,
   set_addr_win_writes 90 5 7 100 200 (by decide) (by decide) (by decide)⟩

/-- C2: for every 20-entry table (with `gamma.num_values = 10`), `set_gamma`
issues exactly ten register writes, to 0x50, 0x51, 0x52, 0x53, 0x58, 0x54,
0x55, 0x56, 0x57, 0x59 in this order, each carrying (masked high point << 8) |
(masked low point) after the layout table of the specification, and returns 0. -/
theorem set_gamma_layout (c : List Nat) (h : c.length = 20) :
    (set_gamma 10 c).map (fun r => (bus_writes r.1, r.2.2)) =
      some ([Event.write_reg 0x0050 (spec_pack c 0 5 4 : Nat),
             Event.write_reg 0x0051 (spec_pack c 0 7 6 : Nat),
             Event.write_reg 0x0052 (spec_pack c 0 9 8 : Nat),
             Event.write_reg 0x0053 (spec_pack c 0 3 2 : Nat),
             Event.write_reg 0x0058 (spec_pack c 0 1 0 : Nat),
             Event.write_reg 0x0054 (spec_pack c 1 5 4 : Nat),
             Event.write_reg 0x0055 (spec_pack c 1 7 6 : Nat),
             Event.write_reg 0x0056 (spec_pack c 1 9 8 : Nat),
             Event.write_reg 0x0057 (spec_pack c 1 3 2 : Nat),
             Event.write_reg 0x0059 (spec_pack c 1 1 0 : Nat)], 0) := by
  rw [table_of_length_20 c h, set_gamma_table]
  simp [bus_writes, Event.isWrite, spec_pack, spec_point, spec_mask]

theorem set_gamma_layout_witness :
    (List.replicate 20 0xABCD).length = 20 ∧
      (set_gamma 10 (List.replicate 20 0xABCD)).map (fun r => (bus_writes r.1, r.2.2)) =
      some ([Event.write_reg 0x0050 (spec_pack (List.replicate 20 0xABCD) 0 5 4 : Nat),
             Event.write_reg 0x0051 (spec_pack (List.replicate 20 0xABCD) 0 7 6 : Nat),
             Event.write_reg 0x0052 (spec_pack (List.replicate 20 0xABCD) 0 9 8 : Nat),
             Event.write_reg 0x0053 (spec_pack (List.replicate 20 0xABCD) 0 3 2 : Nat),
             Event.write_reg 0x0058 (spec_pack (List.replicate 20 0xABCD) 0 1 0 : Nat),
             Event.write_reg 0x0054 (spec_pack (List.replicate 20 0xABCD) 1 5 4 : Nat),
             Event.write_reg 0x0055 (spec_pack (List.replicate 20 0xABCD) 1 7 6 : Nat),
             Event.write_reg 0x0056 (spec_pack (List.replicate 20 0xABCD) 1 9 8 : Nat),
             Event.write_reg 0x0057 (spec_pack (List.replicate 20 0xABCD) 1 3 2 : Nat),
             Event.write_reg 0x0059 (spec_pack (List.replicate 20 0xABCD) 1 1 0 : Nat)], 0) :=
  ⟨by decide, set_gamma_layout (List.replicate 20 0xABCD) (by decide)⟩

/-- C3: for every 20-entry table of unsigned values (with
`gamma.num_values = 10`), `set_gamma` succeeds with return value 0 and leaves
in the caller's table, at curve i point j, the original value ANDed with 0x1F
when j is 0 or 1 and with 0x0F when j is 2 to 9; no value makes it fail. -/
theorem set_gamma_masks_table (c : List Nat) (h : c.length = 20) :
    ∃ t out, set_gamma 10 c = some (t, out, 0) ∧ out.length = 20 ∧
      ∀ i j, i < 2 → j < 10 →
        out.getD (i * 10 + j) 0 = c.getD (i * 10 + j) 0 &&& (if j < 2 then 0x1F else 0x0F) := by
  rw [table_of_length_20 c h, set_gamma_table]
  refine ⟨_, _, rfl, rfl, ?_⟩
  intro i j hi hj
  interval_cases i <;> interval_cases j <;> simp

theorem set_gamma_masks_table_witness :
    (List.replicate 20 0xFFFFFFFF).length = 20 ∧
      ∃ t out, set_gamma 10 (List.replicate 20 0xFFFFFFFF) = some (t, out, 0) ∧ out.length = 20 ∧
        ∀ i j, i < 2 → j < 10 →
          out.getD (i * 10 + j) 0 =
            (List.replicate 20 0xFFFFFFFF).getD (i * 10 + j) 0 &&& (if j < 2 then 0x1F else 0x0F) :=
  ⟨by decide, set_gamma_masks_table (List.replicate 20 0xFFFFFFFF) (by decide)⟩

/-- C4: for each of the four rotations and each colour-order bit, `set_var`
issues exactly one write, 0x0003 <- (bgr << 12) | L with L = 0x30, 0x18, 0x00,
0x28 for 0, 90, 180, 270 degrees, and returns 0; (180, bgr = 1) writes 0x1000
and (90, bgr = 0) writes 0x0018. -/
theorem set_var_writes (r bgr : Nat) (hr : r = 0 ∨ r = 90 ∨ r = 180 ∨ r = 270)
    (hb : bgr = 0 ∨ bgr = 1) :
    bus_writes (set_var r bgr).1 =
        [Event.write_reg 0x0003 (((bgr <<< 12) ||| spec_entry_mode r : Nat) : Int)] ∧
      (set_var r bgr).2 = 0 ∧
      bus_writes (set_var 180 1).1 = [Event.write_reg 0x0003 0x1000] ∧
      bus_writes (set_var 90 0).1 = [Event.write_reg 0x0003 0x0018] := by
  refine ⟨?_, rfl, by decide, by decide⟩
  rcases hr with h | h | h | h <;> subst h <;> rcases hb with h | h <;> subst h <;> decide

theorem set_var_writes_witness :
    ((270 : Nat) = 0 ∨ (270 : Nat) = 90 ∨ (270 : Nat) = 180 ∨ (270 : Nat) = 270) ∧
      ((1 : Nat) = 0 ∨ (1 : Nat) = 1) ∧
      (bus_writes (set_var 270 1).1 =
        [Event.write_reg 0x0003 (((1 <<< 12) ||| spec_entry_mode 270 : Nat) : Int)] ∧
      (set_var 270 1).2 = 0 ∧
      bus_writes (set_var 180 1).1 = [Event.write_reg 0x0003 0x1000] ∧
      bus_writes (set_var 90 0).1 = [Event.write_reg 0x0003 0x0018]) :=
  ⟨by decide, by decide, set_var_writes 270 1 (by decide) (by decide)⟩

/-- C5 (counterexample): with a read that delivers the expected device code,
the writes and delays between the power-stage enable write (0x0010) and the
first panel-geometry write (0x0001) are not four writes to 0x0011 with delays
10, 10, 10, 30. -/
theorem init_display_ramp_not_four :
    ¬ ∃ a b c d : Int,
      between_writes 0x0010 0x0001
          (writes_and_delays (init_display (fun _ => ⟨0, [0x01, 0x54]⟩)).1) =
        [Event.write_reg 0x0011 a, Event.mdelay 10, Event.write_reg 0x0011 b, Event.mdelay 10,
         Event.write_reg 0x0011 c, Event.mdelay 10, Event.write_reg 0x0011 d, Event.mdelay 30] := by
  rintro ⟨a, b, c, d, h⟩
  have e : (between_writes 0x0010 0x0001
      (writes_and_delays (init_display (fun _ => ⟨0, [0x01, 0x54]⟩)).1)).length = 10 := rfl
  rw [h] at e
  simp at e

/-- C5 (amended): whatever the read delivers, the power-stage enable write
(0x0010) is followed by five writes to the power register 0x0011 (0x011A,
0x031A, 0x071A, 0x0F1A, 0x0F3A), each immediately followed by one delay, the
delays being 10, 10, 10, 10 and 30 ms (70 ms in total), and nothing else is
written or waited for before the first panel-geometry write (0x0001). -/
theorem init_display_ramp (read : Nat → ReadResult) :
    between_writes 0x0010 0x0001 (writes_and_delays (init_display read).1) =
        [Event.write_reg 0x0011 0x011A, Event.mdelay 10,
         Event.write_reg 0x0011 0x031A, Event.mdelay 10,
         Event.write_reg 0x0011 0x071A, Event.mdelay 10,
         Event.write_reg 0x0011 0x0F1A, Event.mdelay 10,
         Event.write_reg 0x0011 0x0F3A, Event.mdelay 30] ∧
      total_delay (between_writes 0x0010 0x0001 (writes_and_delays (init_display read).1)) = 70 := by
  simp only [init_display, read_devicecode]
  split <;> exact ⟨rfl, rfl⟩

/-- C6: whatever device code `d` the read yields, `init_display` logs no
warning when d = 0x0154, none when d = 0x0000, exactly one warning (about d)
for every other d, and returns 0 in all three cases. -/
theorem init_display_identity_check (read : Nat → ReadResult) (d : Nat)
    (hd : (read_devicecode read).2 = d) :
    (d = 0x0154 → warnings (init_display read).1 = []) ∧
      (d = 0x0000 → warnings (init_display read).1 = []) ∧
      (d ≠ 0x0154 → d ≠ 0x0000 → warnings (init_display read).1 = [Event.dev_warn d]) ∧
      (init_display read).2 = 0 := by
  have key : warnings (init_display read).1 =
      if d ≠ 0x0000 ∧ d ≠ 0x0154 then [Event.dev_warn d] else [] := by
    subst hd
    simp only [init_display]
    split <;> rfl
  refine ⟨?_, ?_, ?_, rfl⟩
  · intro h
    rw [key, if_neg (by omega)]
  · intro h
    rw [key, if_neg (by omega)]
  · intro h1 h2
    rw [key, if_pos ⟨h2, h1⟩]

theorem init_display_identity_check_witness :
    (read_devicecode (fun _ => ⟨0, [0x93, 0x25]⟩)).2 = 0x9325 ∧
      ((0x9325 = 0x0154 → warnings (init_display (fun _ => ⟨0, [0x93, 0x25]⟩)).1 = []) ∧
      (0x9325 = 0x0000 → warnings (init_display (fun _ => ⟨0, [0x93, 0x25]⟩)).1 = []) ∧
      (0x9325 ≠ 0x0154 → 0x9325 ≠ 0x0000 →
        warnings (init_display (fun _ => ⟨0, [0x93, 0x25]⟩)).1 = [Event.dev_warn 0x9325]) ∧
      (init_display (fun _ => ⟨0, [0x93, 0x25]⟩)).2 = 0) :=
  ⟨by decide, init_display_identity_check (fun _ => ⟨0, [0x93, 0x25]⟩) 0x9325 (by decide)⟩

/-- C7 (counterexample): when the 2-byte read fails with -5 (EIO) and delivers
nothing, `init_display` still returns 0 and still issues 27 register writes
after the read. -/
theorem init_display_read_failure_ignored :
    ((fun _ => ⟨-5, []⟩ : Nat → ReadResult) 2).ret = -5 ∧
      (init_display (fun _ => ⟨-5, []⟩)).2 = 0 ∧
      (bus_writes (after_read (init_display (fun _ => ⟨-5, []⟩)).1)).length = 27 := by
  decide

/-- C7 (amended): `init_display` does not look at the outcome of its bus
transactions: whatever return code and bytes the 2-byte read reports, it goes
on to issue the same 27 register writes as after a successful read and
returns 0. -/
theorem init_display_ignores_read_result (read : Nat → ReadResult) :
    (init_display read).2 = 0 ∧
      bus_writes (after_read (init_display read).1) =
        bus_writes (after_read (init_display (fun _ => ⟨0, [0x01, 0x54]⟩)).1) ∧
      (bus_writes (after_read (init_display read).1)).length = 27 := by
  refine ⟨rfl, ?_⟩
  simp only [init_display, read_devicecode]
  split <;> exact ⟨rfl, rfl⟩

/-- C8 (counterexample): at rotation 90 the start corner (0, 300), which lies
in 0 <= xs < 240, 0 <= ys < 320, makes `set_addr_win` write 300 to the
horizontal address register, outside the horizontal window 0..239 that
`init_display` programmed. -/
theorem set_addr_win_leaves_window :
    ((0 : Int) ≤ 0 ∧ (0 : Int) < 240) ∧ ((0 : Int) ≤ 300 ∧ (300 : Int) < 320) ∧
      values_written 0x0020 (set_addr_win 90 0 300 0 0) = [300] ∧
      h_window (init_display (fun _ => ⟨0, [0x01, 0x54]⟩)).1 = some (0, 239) ∧
      ¬ ((300 : Int) ≤ 239) := by
  decide

/-- C8 (amended): for each of the four rotations and each start corner in
0 <= xs < 240, 0 <= ys < 320, the value written to the vertical address
register 0x0021 lies in the vertical window 0..319 that `init_display`
programmed, and the value written to the horizontal address register 0x0020
lies in the horizontal window 0..239 exactly when the rotation is 0 or 180 or
ys < 240. -/
theorem set_addr_win_within_window (read : Nat → ReadResult) (r : Nat) (xs ys xe ye : Int)
    (hr : r = 0 ∨ r = 90 ∨ r = 180 ∨ r = 270)
    (hx : 0 ≤ xs ∧ xs < 240) (hy : 0 ≤ ys ∧ ys < 320) :
    ∃ h v hs he vs ve,
      values_written 0x0020 (set_addr_win r xs ys xe ye) = [h] ∧
      values_written 0x0021 (set_addr_win r xs ys xe ye) = [v] ∧
      h_window (init_display read).1 = some (hs, he) ∧
      v_window (init_display read).1 = some (vs, ve) ∧
      (vs ≤ v ∧ v ≤ ve) ∧
      ((hs ≤ h ∧ h ≤ he) ↔ (r = 0 ∨ r = 180 ∨ ys < 240)) := by
  refine ⟨_, _, 0, 239, 0, 319, (set_addr_win_registers r xs ys xe ye hr).1,
    (set_addr_win_registers r xs ys xe ye hr).2, (init_display_windows read).1,
    (init_display_windows read).2, ?_, ?_⟩ <;>
  rcases hr with h | h | h | h <;> subst h <;> simp [spec_window] <;> omega

theorem set_addr_win_within_window_witness :
    ((270 : Nat) = 0 ∨ (270 : Nat) = 90 ∨ (270 : Nat) = 180 ∨ (270 : Nat) = 270) ∧
      ((0 : Int) ≤ 100 ∧ (100 : Int) < 240) ∧ ((0 : Int) ≤ 200 ∧ (200 : Int) < 320) ∧
      ∃ h v hs he vs ve,
        values_written 0x0020 (set_addr_win 270 100 200 239 319) = [h] ∧
        values_written 0x0021 (set_addr_win 270 100 200 239 319) = [v] ∧
        h_window (init_display (fun _ => ⟨0, [0x01, 0x54]⟩)).1 = some (hs, he) ∧
        v_window (init_display (fun _ => ⟨0, [0x01, 0x54]⟩)).1 = some (vs, ve) ∧
        (vs ≤ v ∧ v ≤ ve) ∧
        ((hs ≤ h ∧ h ≤ he) ↔ ((270 : Nat) = 0 ∨ (270 : Nat) = 180 ∨ (200 : Int) < 240)) :=
  ⟨by decide, by decide, by decide,
   set_addr_win_within_window (fun _ => ⟨0, [0x01, 0x54]⟩) 270 100 200 239 319
     (by decide) (by decide) (by decide)⟩

/-- C9: gamma round trip.  For every 20-entry table (with
`gamma.num_values = 10`), each register of the layout table is written once,
with a value that fits in 16 bits and whose high byte (value >> 8) and low
byte (value & 0xFF) are the masked values of the two control points assigned
to that register; every one of the 20 points is the high or the low point of
some register, so the ten registers reproduce all 20 masked inputs. -/
theorem set_gamma_roundtrip (c : List Nat) (h : c.length = 20) :
    ∃ t out, set_gamma 10 c = some (t, out, 0) ∧
      (∀ e ∈ spec_layout, ∃ v : Nat, values_written e.1 t = [(v : Int)] ∧ v < 65536 ∧
        v >>> 8 = spec_point c e.2.1 e.2.2.1 ∧ v &&& 0xFF = spec_point c e.2.1 e.2.2.2) ∧
      (∀ i j, i < 2 → j < 10 → ∃ e ∈ spec_layout, e.2.1 = i ∧ (e.2.2.1 = j ∨ e.2.2.2 = j)) := by
  obtain ⟨t, out, ht, hv⟩ : ∃ t out, set_gamma 10 c = some (t, out, 0) ∧
      ∀ e ∈ spec_layout,
        values_written e.1 t = [((spec_pack c e.2.1 e.2.2.1 e.2.2.2 : Nat) : Int)] := by
    rw [table_of_length_20 c h, set_gamma_table]
    refine ⟨_, _, rfl, ?_⟩
    intro e he
    simp only [spec_layout, List.mem_cons, List.mem_singleton, List.not_mem_nil, or_false] at he
    rcases he with e1 | e1 | e1 | e1 | e1 | e1 | e1 | e1 | e1 | e1 <;> subst e1 <;>
      simp [values_written, spec_pack, spec_point, spec_mask]
  refine ⟨t, out, ht, ?_, ?_⟩
  · intro e he
    exact ⟨spec_pack c e.2.1 e.2.2.1 e.2.2.2, hv e he,
      pack_split _ _ (spec_point_lt c _ _) (spec_point_lt c _ _)⟩
  · intro i j hi hj
    interval_cases i <;> interval_cases j <;> decide

theorem set_gamma_roundtrip_witness :
    (List.replicate 20 0x1234).length = 20 ∧
      ∃ t out, set_gamma 10 (List.replicate 20 0x1234) = some (t, out, 0) ∧
        (∀ e ∈ spec_layout, ∃ v : Nat, values_written e.1 t = [(v : Int)] ∧ v < 65536 ∧
          v >>> 8 = spec_point (List.replicate 20 0x1234) e.2.1 e.2.2.1 ∧
          v &&& 0xFF = spec_point (List.replicate 20 0x1234) e.2.1 e.2.2.2) ∧
        (∀ i j, i < 2 → j < 10 →
          ∃ e ∈ spec_layout, e.2.1 = i ∧ (e.2.2.1 = j ∨ e.2.2.2 = j)) :=
  ⟨by decide, set_gamma_roundtrip (List.replicate 20 0x1234) (by decide)⟩

/-- C10: for each of the four rotations, the pair (H, V) that `set_addr_win`
writes to 0x0020 and 0x0021 for a start corner in 0 <= xs < 240,
0 <= ys < 320 is mapped back to (xs, ys) by the explicit inverse
`addr_inverse`, and two start corners in that range with the same register
pair are the same corner. -/
theorem set_addr_win_invertible (r : Nat) (xs ys xe ye xs2 ys2 xe2 ye2 : Int)
    (hr : r = 0 ∨ r = 90 ∨ r = 180 ∨ r = 270)
    (_hx : 0 ≤ xs ∧ xs < 240) (_hy : 0 ≤ ys ∧ ys < 320)
    (_hx2 : 0 ≤ xs2 ∧ xs2 < 240) (_hy2 : 0 ≤ ys2 ∧ ys2 < 320) :
    (∃ h v, values_written 0x0020 (set_addr_win r xs ys xe ye) = [h] ∧
        values_written 0x0021 (set_addr_win r xs ys xe ye) = [v] ∧
        addr_inverse r h v = (xs, ys)) ∧
      (values_written 0x0020 (set_addr_win r xs ys xe ye) =
          values_written 0x0020 (set_addr_win r xs2 ys2 xe2 ye2) →
        values_written 0x0021 (set_addr_win r xs ys xe ye) =
          values_written 0x0021 (set_addr_win r xs2 ys2 xe2 ye2) →
        xs = xs2 ∧ ys = ys2) := by
  have a := set_addr_win_registers r xs ys xe ye hr
  have b := set_addr_win_registers r xs2 ys2 xe2 ye2 hr
  refine ⟨⟨_, _, a.1, a.2, ?_⟩, ?_⟩
  · rcases hr with e | e | e | e <;> subst e <;> simp [spec_window, addr_inverse]
  · rw [a.1, a.2, b.1, b.2]
    rcases hr with e | e | e | e <;> subst e <;> simp [spec_window] <;> omega

theorem set_addr_win_invertible_witness :
    ((180 : Nat) = 0 ∨ (180 : Nat) = 90 ∨ (180 : Nat) = 180 ∨ (180 : Nat) = 270) ∧
      ((0 : Int) ≤ 17 ∧ (17 : Int) < 240) ∧ ((0 : Int) ≤ 301 ∧ (301 : Int) < 320) ∧
      ((0 : Int) ≤ 239 ∧ (239 : Int) < 240) ∧ ((0 : Int) ≤ 0 ∧ (0 : Int) < 320) ∧
      ((∃ h v, values_written 0x0020 (set_addr_win 180 17 301 239 319) = [h] ∧
          values_written 0x0021 (set_addr_win 180 17 301 239 319) = [v] ∧
          addr_inverse 180 h v = (17, 301)) ∧
        (values_written 0x0020 (set_addr_win 180 17 301 239 319) =
            values_written 0x0020 (set_addr_win 180 239 0 239 319) →
          values_written 0x0021 (set_addr_win 180 17 301 239 319) =
            values_written 0x0021 (set_addr_win 180 239 0 239 319) →
          (17 : Int) = 239 ∧ (301 : Int) = 0)) :=
  ⟨by decide, by decide, by decide, by decide, by decide,
   set_addr_win_invertible 180 17 301 239 319 239 0 239 319
     (by decide) (by decide) (by decide) (by decide) (by decide)⟩

/-- C11: masking is idempotent.  For every 20-entry table (with
`gamma.num_values = 10`), a second run of `set_gamma` on the table left by the
first run leaves that table unchanged and produces the same trace, hence the
same ten register writes; and v & m & m = v & m for every value v and every
entry m of the mask array (0x1F and 0x0F). -/
theorem set_gamma_idempotent (c : List Nat) (h : c.length = 20) :
    (∃ t out, set_gamma 10 c = some (t, out, 0) ∧ set_gamma 10 out = some (t, out, 0) ∧
        (bus_writes t).length = 10) ∧
      (∀ v m, m ∈ mask → v &&& m &&& m = v &&& m) ∧
      (∀ m, m ∈ mask ↔ m = 0x1F ∨ m = 0x0F) := by
  refine ⟨?_, ?_, ?_⟩
  · rw [table_of_length_20 c h, set_gamma_table]
    refine ⟨_, _, rfl, ?_, rfl⟩
    rw [set_gamma_table]
    simp only [Nat.and_assoc, Nat.and_self]
  · intro v m _
    rw [Nat.and_assoc, Nat.and_self]
  · intro m
    simp only [mask, List.mem_cons, List.mem_singleton, List.not_mem_nil, or_false]
    omega

theorem set_gamma_idempotent_witness :
    (List.replicate 20 0x7F).length = 20 ∧
      ((∃ t out, set_gamma 10 (List.replicate 20 0x7F) = some (t, out, 0) ∧
          set_gamma 10 out = some (t, out, 0) ∧ (bus_writes t).length = 10) ∧
        (∀ v m, m ∈ mask → v &&& m &&& m = v &&& m) ∧
        (∀ m, m ∈ mask ↔ m = 0x1F ∨ m = 0x0F)) :=
  ⟨by decide, set_gamma_idempotent (List.replicate 20 0x7F) (by decide)⟩

/-- C12: `read_devicecode` first issues the data-less command 0x0000 and then
requests a read of exactly 2 bytes; when the read delivers the bytes b0, b1 it
returns b0 * 256 + b1, a value in 0..0xFFFF; when the read delivers nothing
(the buffer stays zeroed) it returns 0. -/
theorem read_devicecode_value (read : Nat → ReadResult) (b0 b1 : Nat)
    (h0 : b0 < 256) (h1 : b1 < 256) (hd : (read 2).data = [b0, b1]) :
    (read_devicecode read).1 = [Event.write_cmd 0x0000, Event.read 2] ∧
      (read_devicecode read).2 = b0 * 256 + b1 ∧
      (read_devicecode read).2 ≤ 0xFFFF ∧
      (∀ other : Nat → ReadResult, (other 2).data = [] →
        (read_devicecode other).1 = [Event.write_cmd 0x0000, Event.read 2] ∧
        (read_devicecode other).2 = 0) := by
  have v : (read_devicecode read).2 = b0 * 256 + b1 := by
    simp [read_devicecode, store_bytes, hd, Nat.mod_eq_of_lt h0, Nat.mod_eq_of_lt h1,
      pack_eq b0 b1 h1]
  refine ⟨rfl, v, ?_, ?_⟩
  · rw [v]
    omega
  · intro other ho
    refine ⟨rfl, ?_⟩
    simp [read_devicecode, store_bytes, ho]

theorem read_devicecode_value_witness :
    (0x01 : Nat) < 256 ∧ (0x54 : Nat) < 256 ∧
      ((fun _ => ⟨2, [0x01, 0x54]⟩ : Nat → ReadResult) 2).data = [0x01, 0x54] ∧
      ((read_devicecode (fun _ => ⟨2, [0x01, 0x54]⟩)).1 = [Event.write_cmd 0x0000, Event.read 2] ∧
        (read_devicecode (fun _ => ⟨2, [0x01, 0x54]⟩)).2 = 0x01 * 256 + 0x54 ∧
        (read_devicecode (fun _ => ⟨2, [0x01, 0x54]⟩)).2 ≤ 0xFFFF ∧
        (∀ other : Nat → ReadResult, (other 2).data = [] →
          (read_devicecode other).1 = [Event.write_cmd 0x0000, Event.read 2] ∧
          (read_devicecode other).2 = 0)) :=
  ⟨by decide, by decide, rfl,
   read_devicecode_value (fun _ => ⟨2, [0x01, 0x54]⟩) 0x01 0x54 (by decide) (by decide) rfl⟩

/-- C13: the identity check is advisory only.  For any two reads, whatever
device codes they yield, `init_display` issues the same sequence of register
writes and delays, returns 0 both times, and its traces agree on everything
that is not a logging call. -/
theorem init_display_advisory (read1 read2 : Nat → ReadResult) :
    writes_and_delays (init_display read1).1 = writes_and_delays (init_display read2).1 ∧
      (init_display read1).2 = 0 ∧ (init_display read2).2 = 0 ∧
      core_events (init_display read1).1 = core_events (init_display read2).1 ∧
      (writes_and_delays (init_display read1).1).length = 33 := by
  refine ⟨?_, rfl, rfl, ?_, ?_⟩
  · rw [init_display_writes_and_delays read1, init_display_writes_and_delays read2]
  · rw [init_display_core read1, init_display_core read2]
  · rw [init_display_writes_and_delays read1]
    rfl

/-- C14: whatever the read delivers, `init_display` writes each of the six
GRAM registers exactly once: write position 0x0020 <- 0 and 0x0021 <- 0,
horizontal start 0x0037 <- 0, horizontal end 0x0036 <- 239 = width - 1,
vertical start 0x0039 <- 0, vertical end 0x0038 <- 319 = height - 1, with
width = 240 and height = 320 the dimensions of the display metadata. -/
theorem init_display_gram_defaults (read : Nat → ReadResult) :
    values_written 0x0020 (init_display read).1 = [0] ∧
      values_written 0x0021 (init_display read).1 = [0] ∧
      values_written 0x0037 (init_display read).1 = [0] ∧
      values_written 0x0036 (init_display read).1 = [239] ∧
      values_written 0x0039 (init_display read).1 = [0] ∧
      values_written 0x0038 (init_display read).1 = [319] ∧
      display.width = 240 ∧ display.height = 320 ∧
      display.width - 1 = 239 ∧ display.height - 1 = 319 := by
  refine ⟨?_, ?_, ?_, ?_, ?_, ?_, rfl, rfl, by decide, by decide⟩ <;>
    simp only [init_display, read_devicecode] <;> split <;> rfl

/-- C15: `set_addr_win` consumes only the start corner: for every rotation
value and every start corner, two calls that differ only in the end corner
issue the same sequence of bus writes. -/
theorem set_addr_win_ignores_end (r : Nat) (xs ys xe ye xe2 ye2 : Int) :
    bus_writes (set_addr_win r xs ys xe ye) = bus_writes (set_addr_win r xs ys xe2 ye2) := by
  simp [set_addr_win, bus_writes, List.filter_append, Event.isWrite]

/-- C16: in the bus writes of `init_display`, whatever the read delivers, the
display-disable write 0x0007 <- 0 and the seven panel-geometry writes all come
before the six GRAM addressing writes, these all come before the single
oscillator-start write 0x000F, the last two writes are 0x0007 <- 0x0016 and
0x0007 <- 0x0017, and the values written to 0x0007 are 0, 0x0016, 0x0017 in
this order. -/
theorem init_display_phase_order (read : Nat → ReadResult) :
    (write_positions is_geometry_write 0 (bus_writes (init_display read).1)).length = 8 ∧
      (write_positions is_gram_write 0 (bus_writes (init_display read).1)).length = 6 ∧
      (write_positions is_osc_write 0 (bus_writes (init_display read).1)).length = 1 ∧
      all_before (write_positions is_geometry_write 0 (bus_writes (init_display read).1))
        (write_positions is_gram_write 0 (bus_writes (init_display read).1)) = true ∧
      all_before (write_positions is_gram_write 0 (bus_writes (init_display read).1))
        (write_positions is_osc_write 0 (bus_writes (init_display read).1)) = true ∧
      (bus_writes (init_display read).1).drop ((bus_writes (init_display read).1).length - 2) =
        [Event.write_reg 0x0007 0x0016, Event.write_reg 0x0007 0x0017] ∧
      values_written 0x0007 (bus_writes (init_display read).1) = [0x0000, 0x0016, 0x0017] := by
  rw [init_display_bus_writes read]
  decide

/-- C17: for a rotation value other than 0, 90, 180, 270, `set_var` issues no
bus write and returns 0, `set_addr_win` issues only the data-less command
0x0022 and writes neither 0x0020 nor 0x0021, and neither logs a warning. -/
theorem invalid_rotation_unreported (r bgr : Nat) (xs ys xe ye : Int)
    (hr : r ≠ 0 ∧ r ≠ 90 ∧ r ≠ 180 ∧ r ≠ 270) :
    bus_writes (set_var r bgr).1 = [] ∧ (set_var r bgr).2 = 0 ∧
      warnings (set_var r bgr).1 = [] ∧
      bus_writes (set_addr_win r xs ys xe ye) = [Event.write_cmd 0x0022] ∧
      values_written 0x0020 (set_addr_win r xs ys xe ye) = [] ∧
      values_written 0x0021 (set_addr_win r xs ys xe ye) = [] ∧
      warnings (set_addr_win r xs ys xe ye) = [] := by
  obtain ⟨h0, h1, h2, h3⟩ := hr
  have a : set_var r bgr = ([Event.dbg "%s()" []], 0) := by
    simp only [set_var]
    rfl
  have b : set_addr_win r xs ys xe ye =
      [Event.dbg "%s(xs=%d, ys=%d, xe=%d, ye=%d)" [xs, ys, xe, ye], Event.write_cmd 0x0022] := by
    simp only [set_addr_win]
    rfl
  rw [a, b]
  exact ⟨rfl, rfl, rfl, rfl, rfl, rfl, rfl⟩

theorem invalid_rotation_unreported_witness :
    ((45 : Nat) ≠ 0 ∧ (45 : Nat) ≠ 90 ∧ (45 : Nat) ≠ 180 ∧ (45 : Nat) ≠ 270) ∧
      (bus_writes (set_var 45 1).1 = [] ∧ (set_var 45 1).2 = 0 ∧
        warnings (set_var 45 1).1 = [] ∧
        bus_writes (set_addr_win 45 10 20 30 40) = [Event.write_cmd 0x0022] ∧
        values_written 0x0020 (set_addr_win 45 10 20 30 40) = [] ∧
        values_written 0x0021 (set_addr_win 45 10 20 30 40) = [] ∧
        warnings (set_addr_win 45 10 20 30 40) = []) :=
  ⟨by decide, invalid_rotation_unreported 45 1 10 20 30 40 (by decide)⟩

/-- C18: with the logical rectangle of the rotated frame (240 x 320 for
rotations 0 and 180, 320 x 240 for rotations 90 and 270), the pair (H, V) that
`set_addr_win` writes to 0x0020 and 0x0021 satisfies 0 <= H <= 239 and
0 <= V <= 319 and is mapped back to the start corner by `addr_inverse`; and
every (H, V) of the panel [0,239] x [0,319] is written for the start corner
`addr_inverse r H V`, which lies in the logical rectangle.  So for each
rotation the map is a bijection from the logical rectangle onto the panel. -/
theorem set_addr_win_bijection (r : Nat) (hr : r = 0 ∨ r = 90 ∨ r = 180 ∨ r = 270) :
    (∀ xs ys xe ye : Int, in_logical r xs ys →
        ∃ h v, values_written 0x0020 (set_addr_win r xs ys xe ye) = [h] ∧
          values_written 0x0021 (set_addr_win r xs ys xe ye) = [v] ∧
          (0 ≤ h ∧ h ≤ 239) ∧ (0 ≤ v ∧ v ≤ 319) ∧ addr_inverse r h v = (xs, ys)) ∧
      (∀ h v xe ye : Int, 0 ≤ h ∧ h ≤ 239 → 0 ≤ v ∧ v ≤ 319 →
        in_logical r (addr_inverse r h v).1 (addr_inverse r h v).2 ∧
        values_written 0x0020
          (set_addr_win r (addr_inverse r h v).1 (addr_inverse r h v).2 xe ye) = [h] ∧
        values_written 0x0021
          (set_addr_win r (addr_inverse r h v).1 (addr_inverse r h v).2 xe ye) = [v]) := by
  constructor
  · intro xs ys xe ye hl
    refine ⟨_, _, (set_addr_win_registers r xs ys xe ye hr).1,
      (set_addr_win_registers r xs ys xe ye hr).2, ?_⟩
    rcases hr with e | e | e | e <;> subst e <;>
      simp [in_logical] at hl <;> simp [spec_window, addr_inverse] <;> omega
  · intro h v xe ye hh hv
    rw [(set_addr_win_registers r _ _ xe ye hr).1, (set_addr_win_registers r _ _ xe ye hr).2]
    rcases hr with e | e | e | e <;> subst e <;>
      simp [in_logical, spec_window, addr_inverse] <;> omega

theorem set_addr_win_bijection_witness :
    ((90 : Nat) = 0 ∨ (90 : Nat) = 90 ∨ (90 : Nat) = 180 ∨ (90 : Nat) = 270) ∧
      ((∀ xs ys xe ye : Int, in_logical 90 xs ys →
          ∃ h v, values_written 0x0020 (set_addr_win 90 xs ys xe ye) = [h] ∧
            values_written 0x0021 (set_addr_win 90 xs ys xe ye) = [v] ∧
            (0 ≤ h ∧ h ≤ 239) ∧ (0 ≤ v ∧ v ≤ 319) ∧ addr_inverse 90 h v = (xs, ys)) ∧
        (∀ h v xe ye : Int, 0 ≤ h ∧ h ≤ 239 → 0 ≤ v ∧ v ≤ 319 →
          in_logical 90 (addr_inverse 90 h v).1 (addr_inverse 90 h v).2 ∧
          values_written 0x0020
            (set_addr_win 90 (addr_inverse 90 h v).1 (addr_inverse 90 h v).2 xe ye) = [h] ∧
          values_written 0x0021
            (set_addr_win 90 (addr_inverse 90 h v).1 (addr_inverse 90 h v).2 xe ye) = [v])) :=
  ⟨by decide, set_addr_win_bijection 90 (by decide)⟩

/-- C19: the default gamma table is a fixed point of the mask phase, and
`set_gamma` on it (with `gamma.num_values = gamma_len = 10`) returns 0, leaves
all 20 entries unchanged and writes 0x0050 <- 0x0101, 0x0051 <- 0x0603,
0x0052 <- 0x0408, 0x0053 <- 0x0000, 0x0058 <- 0x1000, 0x0054 <- 0x0605,
0x0055 <- 0x0406, 0x0056 <- 0x0303, 0x0057 <- 0x0303, 0x0059 <- 0x0010, in
this order. -/
theorem set_gamma_default :
    default_gamma_curves.length = display.gamma_num * display.gamma_len ∧
      apply_mask display.gamma_len default_gamma_curves = some default_gamma_curves ∧
      (set_gamma display.gamma_len default_gamma_curves).map
          (fun r => (bus_writes r.1, r.2.1, r.2.2)) =
        some ([Event.write_reg 0x0050 0x0101, Event.write_reg 0x0051 0x0603,
               Event.write_reg 0x0052 0x0408, Event.write_reg 0x0053 0x0000,
               Event.write_reg 0x0058 0x1000, Event.write_reg 0x0054 0x0605,
               Event.write_reg 0x0055 0x0406, Event.write_reg 0x0056 0x0303,
               Event.write_reg 0x0057 0x0303, Event.write_reg 0x0059 0x0010],
              default_gamma_curves, 0) := by
  refine ⟨rfl, ?_, ?_⟩
  · exact apply_mask_table 0x00 0x10 0 0 1 1 3 6 8 4 0x10 0x00 3 3 5 6 6 4 3 3
  · exact congrArg (Option.map (fun r => (bus_writes r.1, r.2.1, r.2.2)))
      (set_gamma_table 0x00 0x10 0 0 1 1 3 6 8 4 0x10 0x00 3 3 5 6 6 4 3 3)

end S6D0154
